import Mathlib

/-! Shallow embedding of src/assets/js/motion-effects.js (class MotionEffects)
and verification of behavioral properties of its operations.

JS float arithmetic is modelled with exact rationals (the numbers involved
are small and exactly representable); Date.now() timestamps are integers;
DOM class lists are lists of strings; an inline style property read through
parseFloat is an `Option Rat` (`none` models a style string that parses to
NaN). The JS idiom `parseFloat(s) || fallback` is modelled by `jsOrFloat`:
both NaN and 0 are falsy, so both fall back. -/

/-- DOMTokenList.add c: appends the class token if it is not already present. -/
def classAdd (c : String) (l : List String) : List String :=
  if c ∈ l then l else l ++ [c]

/-- DOMTokenList.remove c: removes the class token. -/
def classRemove (c : String) (l : List String) : List String :=
  l.filter (fun x => x != c)

/-- A host-page element as the component sees it: its class list and the
vertical extent of its bounding client rect. -/
structure HostElem where
  classes : List String
  rectTop : Rat
  rectBottom : Rat
  deriving DecidableEq

/-- entry.target.classList.add of the visible marker (source line 525). -/
def markVisible (el : HostElem) : HostElem :=
  { el with classes := classAdd "visible" el.classes }

/-- isElementInViewport (source lines 645-656): rect.top at most
windowHeight - 100 and rect.bottom at least 0. -/
def isElementInViewport (el : HostElem) (windowHeight : Rat) : Bool :=
  decide (el.rectTop ≤ windowHeight - 100) && decide (0 ≤ el.rectBottom)

/-- maxTrailLength (source line 31). -/
def maxTrailLength : Nat := 8

/-- The instance state relevant to construction and teardown of the visual
nodes, plus the scroll-tagged host elements matched at setup time. -/
structure AppState where
  prefersReducedMotion : Bool
  motionBackgroundCreated : Bool
  layerCount : Nat
  particleCount : Nat
  floatingShapeCount : Nat
  cursorCreated : Bool
  cursorDotCreated : Bool
  trailCount : Nat
  observing : Bool
  listenersAttached : Bool
  frameLoopActive : Bool
  animatedElements : List HostElem
  staggerGroups : List HostElem
  mainContent : Option HostElem
  windowHeight : Rat
  deriving DecidableEq

/-- The constructor field defaults (source lines 11-49, before init runs):
no nodes created, nothing observed, empty node lists. The document's
scroll-tagged elements and the optional .main element are the arguments. -/
def construct (reduced : Bool) (animated stagger : List HostElem)
    (mainC : Option HostElem) (wh : Rat) : AppState :=
  { prefersReducedMotion := reduced
    motionBackgroundCreated := false
    layerCount := 0
    particleCount := 0
    floatingShapeCount := 0
    cursorCreated := false
    cursorDotCreated := false
    trailCount := 0
    observing := false
    listenersAttached := false
    frameLoopActive := false
    animatedElements := animated
    staggerGroups := stagger
    mainContent := mainC
    windowHeight := wh }

/-- createMotionBackground (source lines 76-351): no-op under reduced motion,
otherwise creates the container, 4 layers, 20 particles, 25 floating shapes. -/
def createMotionBackground (s : AppState) : AppState :=
  if s.prefersReducedMotion then s
  else { s with motionBackgroundCreated := true, layerCount := 4,
                particleCount := 20, floatingShapeCount := 25 }

/-- createCustomCursor (source lines 353-392): no-op under reduced motion,
otherwise creates the cursor ring, the dot, and maxTrailLength trail dots. -/
def createCustomCursor (s : AppState) : AppState :=
  if s.prefersReducedMotion then s
  else { s with cursorCreated := true, cursorDotCreated := true,
                trailCount := maxTrailLength }

/-- setupScrollAnimations (source lines 520-550): creates the intersection
observer and observes the matched elements. It adds no class here. -/
def setupScrollAnimations (s : AppState) : AppState :=
  { s with observing := true }

/-- setupEventListeners (source lines 552-570): attaches document listeners. -/
def setupEventListeners (s : AppState) : AppState :=
  { s with listenersAttached := true }

/-- startAnimationLoop (source lines 658-666): starts the frame loop. -/
def startAnimationLoop (s : AppState) : AppState :=
  { s with frameLoopActive := true }

/-- animatePageTransition (source lines 771-782): adds page-transition and,
after a 50 ms timer, active to the .main element when present. -/
def animatePageTransition (s : AppState) : AppState :=
  match s.mainContent with
  | none => s
  | some m =>
      let m2 : HostElem :=
        { m with classes := classAdd "active" (classAdd "page-transition" m.classes) }
      { s with mainContent := some m2 }

/-- init (source lines 52-74), in source order. Note that it never calls
checkElementsInViewport. -/
def initEffects (s : AppState) : AppState :=
  animatePageTransition (startAnimationLoop (setupEventListeners
    (setupScrollAnimations (createCustomCursor (createMotionBackground s)))))

/-- The constructor ends by calling init (source line 49). -/
def newMotionEffects (reduced : Bool) (animated stagger : List HostElem)
    (mainC : Option HostElem) (wh : Rat) : AppState :=
  initEffects (construct reduced animated stagger mainC wh)

/-- checkElementsInViewport (source lines 621-643): under reduced motion,
marks every tracked element visible unconditionally; otherwise marks those
passing the manual viewport test. Only reachable from handleResize. -/
def checkElementsInViewport (s : AppState) : AppState :=
  if s.prefersReducedMotion then
    { s with animatedElements := s.animatedElements.map markVisible,
             staggerGroups := s.staggerGroups.map markVisible }
  else
    { s with
        animatedElements := s.animatedElements.map
          (fun el => if isElementInViewport el s.windowHeight then markVisible el else el),
        staggerGroups := s.staggerGroups.map
          (fun el => if isElementInViewport el s.windowHeight then markVisible el else el) }

/-- Every class mutation the component can apply to a host element, one
constructor per classList.add / classList.remove site in the source. -/
inductive HostOp where
  | observerEntry (isIntersecting : Bool)
  | viewportCheck (reduced : Bool) (windowHeight : Rat)
  | shimmerStart (reduced : Bool)
  | shimmerTimeout
  | sectionTransition
  | sectionActive
  | themeStart
  | themeTimeout
  | cursorHoverStart
  | cursorHoverEnd
  | cursorDown
  | cursorUp
  deriving DecidableEq

/-- The class edit performed by each operation, from the source:
observer callback (lines 522-532), manual viewport check (lines 621-643),
addShimmerLoading and its timer (lines 785-794), triggerPageTransition and
its timer (lines 797-805), theme-change handler and its timer (lines
611-619), and the cursor hover and press listeners (lines 398-420). -/
def applyHostOp : HostOp → HostElem → HostElem
  | HostOp.observerEntry isIntersecting, el =>
      if isIntersecting then
        let el1 := markVisible el
        if "stagger-group" ∈ el1.classes then markVisible el1 else el1
      else el
  | HostOp.viewportCheck reduced wh, el =>
      if reduced then markVisible el
      else if isElementInViewport el wh then markVisible el else el
  | HostOp.shimmerStart reduced, el =>
      if reduced then el else { el with classes := classAdd "loading" el.classes }
  | HostOp.shimmerTimeout, el => { el with classes := classRemove "loading" el.classes }
  | HostOp.sectionTransition, el => { el with classes := classAdd "page-transition" el.classes }
  | HostOp.sectionActive, el => { el with classes := classAdd "active" el.classes }
  | HostOp.themeStart, el => { el with classes := classAdd "theme-transitioning" el.classes }
  | HostOp.themeTimeout, el => { el with classes := classRemove "theme-transitioning" el.classes }
  | HostOp.cursorHoverStart, el => { el with classes := classAdd "hover" el.classes }
  | HostOp.cursorHoverEnd, el => { el with classes := classRemove "hover" el.classes }
  | HostOp.cursorDown, el => { el with classes := classAdd "active" el.classes }
  | HostOp.cursorUp, el => { el with classes := classRemove "active" el.classes }

/-- A reachable sequence of component class operations applied to one element. -/
def runHostOps (el : HostElem) (ops : List HostOp) : HostElem :=
  ops.foldl (fun e op => applyHostOp op e) el

/-- The per-section effect of triggerPageTransition (source lines 797-805):
add page-transition, then active via a 100 ms timer. -/
def triggerSection (sec : HostElem) : HostElem :=
  { sec with classes := classAdd "active" (classAdd "page-transition" sec.classes) }

/-- triggerPageTransition over all .dashboard-section elements. -/
def triggerPageTransition (sections : List HostElem) : List HostElem :=
  sections.map triggerSection

/-- mouseMoveThrottle (source line 43), in milliseconds. -/
def mouseMoveThrottle : Int := 8

/-- The pointer-tracking fields of the instance (source lines 16-21, 41). -/
structure MouseMoveState where
  lastMouseMoveTime : Int
  mouseX : Rat
  mouseY : Rat
  lastMouseX : Rat
  lastMouseY : Rat
  velocityX : Rat
  velocityY : Rat
  deriving DecidableEq

/-- A mousemove event: the Date.now() value observed when it is handled,
and its client coordinates. -/
structure PointerEvent where
  time : Int
  clientX : Rat
  clientY : Rat
  deriving DecidableEq

/-- handleMouseMove (source lines 572-587): drop the event when less than
mouseMoveThrottle ms passed since the last accepted one, otherwise update
velocity, last position and raw position. -/
def handleMouseMove (s : MouseMoveState) (e : PointerEvent) : MouseMoveState :=
  if e.time - s.lastMouseMoveTime < mouseMoveThrottle then s
  else
    { lastMouseMoveTime := e.time
      mouseX := e.clientX
      mouseY := e.clientY
      lastMouseX := e.clientX
      lastMouseY := e.clientY
      velocityX := e.clientX - s.lastMouseX
      velocityY := e.clientY - s.lastMouseY }

/-- A sequence of mousemove events handled in order. -/
def runMouseMoves (s : MouseMoveState) (es : List PointerEvent) : MouseMoveState :=
  es.foldl handleMouseMove s

/-- A cursor or trail node: the inline left and top styles as parseFloat
sees them, and the last written translate pair of the transform style. -/
structure TrackedNode where
  styleLeft : Option Rat
  styleTop : Option Rat
  transform : Option (Rat × Rat)
  deriving DecidableEq

/-- The JS idiom parseFloat(style) || fallback: NaN (modelled none) and 0
are falsy, any other parsed number is returned. -/
def jsOrFloat : Option Rat → Rat → Rat
  | none, fallback => fallback
  | some v, fallback => if v = 0 then fallback else v

/-- The cursor-related instance state used by the frame tick. -/
structure CursorState where
  prefersReducedMotion : Bool
  mouseX : Rat
  mouseY : Rat
  cursor : Option TrackedNode
  cursorDot : Option TrackedNode
  cursorTrail : List TrackedNode
  deriving DecidableEq

/-- One iteration of the trail loop body (source lines 690-703) at index i:
read style.left and style.top of the dot and of its predecessor with the
raw position as the falsy fallback, write the interpolated translate into
the transform style of the dot at index i. -/
def trailStep (x y : Rat) (trail : List TrackedNode) (i : Nat) : List TrackedNode :=
  match trail.get? i, trail.get? (i - 1) with
  | some current, some previous =>
      let currentX := jsOrFloat current.styleLeft x
      let currentY := jsOrFloat current.styleTop y
      let previousX := jsOrFloat previous.styleLeft x
      let previousY := jsOrFloat previous.styleTop y
      let newX := currentX + (previousX - currentX) * (3 / 10)
      let newY := currentY + (previousY - currentY) * (3 / 10)
      trail.set i { current with transform := some (newX, newY) }
  | _, _ => trail

/-- The trail loop runs from index n down to index 1 (source line 690). -/
def trailLoopDown (x y : Rat) : Nat → List TrackedNode → List TrackedNode
  | 0, trail => trail
  | Nat.succ n, trail => trailLoopDown x y n (trailStep x y trail (Nat.succ n))

/-- updateCursorTrail (source lines 688-709): run the loop from the tail
toward the head, then snap trail dot 0 to the raw position. -/
def updateCursorTrail (x y : Rat) (trail : List TrackedNode) : List TrackedNode :=
  let t := trailLoopDown x y (trail.length - 1) trail
  match t with
  | [] => []
  | first :: rest => { first with transform := some (x, y) } :: rest

/-- updateCursor (source lines 668-686): when the cursor nodes exist and
reduced motion is off, read the ring's style.left and style.top (with the
raw position as the falsy fallback), write the 0.1-interpolated translate
into the ring's transform, snap the dot's transform to the raw position,
then update the trail. The styles that are read are never written. -/
def updateCursor (s : CursorState) : CursorState :=
  match s.cursor, s.cursorDot with
  | some cur, some dot =>
      if s.prefersReducedMotion then s
      else
        let targetX := s.mouseX
        let targetY := s.mouseY
        let currentX := jsOrFloat cur.styleLeft targetX
        let currentY := jsOrFloat cur.styleTop targetY
        let newX := currentX + (targetX - currentX) * (1 / 10)
        let newY := currentY + (targetY - currentY) * (1 / 10)
        { s with
            cursor := some { cur with transform := some (newX, newY) }
            cursorDot := some { dot with transform := some (targetX, targetY) }
            cursorTrail := updateCursorTrail targetX targetY s.cursorTrail }
  | _, _ => s

/-- The ring and the dot right after createCustomCursor: style.left and
style.top set to -100px (source lines 385-388), no transform written yet. -/
def cursorStart : TrackedNode :=
  { styleLeft := some (-100), styleTop := some (-100), transform := none }

/-- A trail dot right after creation (source lines 367-382): its cssText
sets neither left nor top, so parseFloat of both is NaN. -/
def trailStart : TrackedNode :=
  { styleLeft := none, styleTop := none, transform := none }

/-- The cursor state right after createCustomCursor ran with reduced motion
off and with the pointer fields still at their constructor value 0. -/
def cursorState0 : CursorState :=
  { prefersReducedMotion := false
    mouseX := 0
    mouseY := 0
    cursor := some cursorStart
    cursorDot := some cursorStart
    cursorTrail := List.replicate maxTrailLength trailStart }

/-- One frame tick from the created state with the pointer at the origin. -/
def cursorState1 : CursorState := updateCursor cursorState0

/-- A second frame tick after the pointer moved to (10, 10). -/
def cursorState2 : CursorState :=
  updateCursor { cursorState1 with mouseX := 10, mouseY := 10 }

/-- A bounding client rect. -/
structure Rect where
  left : Rat
  top : Rat
  width : Rat
  height : Rat
  deriving DecidableEq

/-- A ripple node: the styles written on creation and the timer bounds. -/
structure Ripple where
  width : Rat
  height : Rat
  left : Rat
  top : Rat
  spawnedAt : Int
  removeAt : Int
  deriving DecidableEq

/-- A clicked interactive element: its rect, its inline position style and
the ripple children appended to it. -/
structure ClickTarget where
  rect : Rect
  stylePosition : Option String
  children : List Ripple
  deriving DecidableEq

/-- createRippleEffect (source lines 489-518): no-op under reduced motion;
otherwise size the ripple to the larger rect side, place it so the click
point is its center, force position relative on the target unconditionally,
append the ripple, and schedule its removal 600 ms later. -/
def createRippleEffect (reduced : Bool) (clientX clientY : Rat) (now : Int)
    (t : ClickTarget) : ClickTarget :=
  if reduced then t
  else
    let size := max t.rect.width t.rect.height
    let x := clientX - t.rect.left - size / 2
    let y := clientY - t.rect.top - size / 2
    { t with
        stylePosition := some "relative"
        children := t.children ++
          [{ width := size, height := size, left := x, top := y,
             spawnedAt := now, removeAt := now + 600 }] }

/-- A card element for the spotlight listener: its rect and the two CSS
custom properties the listener writes. -/
structure CardElem where
  rectLeft : Rat
  rectTop : Rat
  rectWidth : Rat
  rectHeight : Rat
  varX : Option Rat
  varY : Option Rat
  deriving DecidableEq

/-- handleCardHover (source lines 589-600): for EVERY element matching the
card selectors, set the custom properties to the pointer position relative
to that card's own rect. -/
def handleCardHover (clientX clientY : Rat) (cards : List CardElem) : List CardElem :=
  cards.map fun card =>
    { card with varX := some (clientX - card.rectLeft)
                varY := some (clientY - card.rectTop) }

/-- Whether the pointer is inside the card's bounding rect. -/
def containsPoint (card : CardElem) (x y : Rat) : Bool :=
  decide (card.rectLeft ≤ x) && decide (x ≤ card.rectLeft + card.rectWidth) &&
  decide (card.rectTop ≤ y) && decide (y ≤ card.rectTop + card.rectHeight)

/-- The teardown-relevant world: which component nodes are attached, which
schedulers run, and which listeners and observers are wired, plus the cards
the spotlight listener touches. -/
structure DWorld where
  animationFrameActive : Bool
  intersectionObserverConnected : Bool
  mutationObserverConnected : Bool
  docListenersAttached : Bool
  cursorAttached : Bool
  cursorDotAttached : Bool
  trailAttachedCount : Nat
  backgroundAttached : Bool
  cards : List CardElem
  deriving DecidableEq

/-- destroy (source lines 808-824): cancel the frame loop, disconnect the
intersection observer, remove the cursor, dot, trail and background nodes.
It does NOT remove the document listeners and does NOT disconnect the
mutation observer. -/
def destroy (w : DWorld) : DWorld :=
  { w with animationFrameActive := false
           intersectionObserverConnected := false
           cursorAttached := false
           cursorDotAttached := false
           trailAttachedCount := 0
           backgroundAttached := false }

/-- A document mousemove dispatched to the world: the card-spotlight
listener (attached at setup, source line 569) runs whenever it is still
attached. -/
def dispatchMouseMove (w : DWorld) (clientX clientY : Rat) : DWorld :=
  if w.docListenersAttached then
    { w with cards := handleCardHover clientX clientY w.cards }
  else w

/-- A world in the state init leaves it: everything attached and wired. -/
def dw0 : DWorld :=
  { animationFrameActive := true
    intersectionObserverConnected := true
    mutationObserverConnected := true
    docListenersAttached := true
    cursorAttached := true
    cursorDotAttached := true
    trailAttachedCount := 8
    backgroundAttached := true
    cards := [{ rectLeft := 0, rectTop := 0, rectWidth := 10, rectHeight := 10,
                varX := none, varY := none }] }

/-- A card whose rect does not contain the pointer position (5, 5). -/
def cardFar : CardElem :=
  { rectLeft := 100, rectTop := 0, rectWidth := 10, rectHeight := 10,
    varX := none, varY := none }

theorem self_mem_classAdd (c : String) (l : List String) : c ∈ classAdd c l := by
  unfold classAdd
  split
  · assumption
  · exact List.mem_append_right _ (List.mem_singleton_self c)

theorem mem_classAdd_of_mem {a : String} (c : String) {l : List String} (h : a ∈ l) :
    a ∈ classAdd c l := by
  unfold classAdd
  split
  · exact h
  · exact List.mem_append_left _ h

theorem classAdd_eq_of_mem {c : String} {l : List String} (h : c ∈ l) : classAdd c l = l := by
  unfold classAdd
  exact if_pos h

theorem mem_classRemove_of_ne {a c : String} {l : List String} (h : a ∈ l) (hne : a ≠ c) :
    a ∈ classRemove c l := by
  unfold classRemove
  refine List.mem_filter.mpr ⟨h, ?_⟩
  simpa using hne

theorem visible_applyHostOp (op : HostOp) (el : HostElem) (h : "visible" ∈ el.classes) :
    "visible" ∈ (applyHostOp op el).classes := by
  cases op with
  | observerEntry b =>
      cases b with
      | false => simpa [applyHostOp] using h
      | true =>
          simp only [applyHostOp, markVisible, if_true]
          split
          · exact self_mem_classAdd _ _
          · exact self_mem_classAdd _ _
  | viewportCheck reduced wh =>
      simp only [applyHostOp, markVisible]
      split
      · exact self_mem_classAdd _ _
      · split
        · exact self_mem_classAdd _ _
        · exact h
  | shimmerStart reduced =>
      simp only [applyHostOp]
      split
      · exact h
      · exact mem_classAdd_of_mem _ h
  | shimmerTimeout => exact mem_classRemove_of_ne h (by decide)
  | sectionTransition => exact mem_classAdd_of_mem _ h
  | sectionActive => exact mem_classAdd_of_mem _ h
  | themeStart => exact mem_classAdd_of_mem _ h
  | themeTimeout => exact mem_classRemove_of_ne h (by decide)
  | cursorHoverStart => exact mem_classAdd_of_mem _ h
  | cursorHoverEnd => exact mem_classRemove_of_ne h (by decide)
  | cursorDown => exact mem_classAdd_of_mem _ h
  | cursorUp => exact mem_classRemove_of_ne h (by decide)

/-- Claim C8: for every scroll-tagged element and every reachable sequence of
component class operations (observer callbacks, viewport checks, timers,
public triggers, cursor listeners), once the visible mark is present it is
never removed: no operation of the component deletes the visible class. -/
theorem C8_visible_irreversible (ops : List HostOp) (el : HostElem)
    (h : "visible" ∈ el.classes) :
    "visible" ∈ (runHostOps el ops).classes := by
  induction ops generalizing el with
  | nil => exact h
  | cons op rest ih =>
      have h1 := visible_applyHostOp op el h
      simpa [runHostOps] using ih (applyHostOp op el) h1

theorem C8_visible_irreversible_witness :
    "visible" ∈ (runHostOps { classes := ["visible", "loading"], rectTop := 0, rectBottom := 0 }
      [HostOp.shimmerTimeout, HostOp.themeTimeout, HostOp.cursorUp,
       HostOp.observerEntry false, HostOp.viewportCheck false 800]).classes :=
  C8_visible_irreversible _ _ (by decide)

theorem triggerSection_idem (sec : HostElem) : triggerSection (triggerSection sec) = triggerSection sec := by
  unfold triggerSection
  have h1 : "page-transition" ∈ classAdd "active" (classAdd "page-transition" sec.classes) :=
    mem_classAdd_of_mem _ (self_mem_classAdd _ _)
  have h2 : "active" ∈ classAdd "active" (classAdd "page-transition" sec.classes) :=
    self_mem_classAdd _ _
  simp [classAdd_eq_of_mem h1, classAdd_eq_of_mem h2]

/-- Claim C10: triggerPageTransition is idempotent on the class state of the
dashboard sections: a second call changes nothing, and the operation only
ever adds the page-transition and active classes, never removing any class. -/
theorem C10_trigger_idempotent (sections : List HostElem) :
    triggerPageTransition (triggerPageTransition sections) = triggerPageTransition sections ∧
    ∀ i : Nat, ∀ el : HostElem, sections[i]? = some el →
      ∃ el2 : HostElem, (triggerPageTransition sections)[i]? = some el2 ∧
        (∀ c : String, c ∈ el.classes → c ∈ el2.classes) ∧
        "page-transition" ∈ el2.classes ∧ "active" ∈ el2.classes := by
  constructor
  · unfold triggerPageTransition
    rw [List.map_map]
    exact List.map_congr_left fun sec _ => triggerSection_idem sec
  · intro i el h
    refine ⟨triggerSection el, ?_, ?_, ?_, ?_⟩
    · simp [triggerPageTransition, List.getElem?_map, h]
    · intro c hc
      exact mem_classAdd_of_mem _ (mem_classAdd_of_mem _ hc)
    · exact mem_classAdd_of_mem _ (self_mem_classAdd _ _)
    · exact self_mem_classAdd _ _

theorem C10_trigger_idempotent_witness :
    triggerPageTransition (triggerPageTransition [{ classes := ["x"], rectTop := 0, rectBottom := 0 }]) =
      triggerPageTransition [{ classes := ["x"], rectTop := 0, rectBottom := 0 }] ∧
    ∃ el2 : HostElem,
      (triggerPageTransition [{ classes := ["x"], rectTop := 0, rectBottom := 0 }])[0]? = some el2 ∧
      "x" ∈ el2.classes ∧ "page-transition" ∈ el2.classes ∧ "active" ∈ el2.classes := by
  have h := C10_trigger_idempotent [{ classes := ["x"], rectTop := 0, rectBottom := 0 }]
  obtain ⟨el2, he, hk, hp, ha⟩ := h.2 0 { classes := ["x"], rectTop := 0, rectBottom := 0 } (by decide)
  exact ⟨h.1, el2, he, hk "x" (by decide), hp, ha⟩

theorem handleMouseMove_lastTime_mono (s : MouseMoveState) (e : PointerEvent) :
    s.lastMouseMoveTime ≤ (handleMouseMove s e).lastMouseMoveTime := by
  unfold handleMouseMove
  split
  · exact le_refl _
  · next h =>
      show s.lastMouseMoveTime ≤ e.time
      unfold mouseMoveThrottle at h
      omega

theorem runMouseMoves_lastTime_mono (es : List PointerEvent) :
    ∀ s : MouseMoveState, s.lastMouseMoveTime ≤ (runMouseMoves s es).lastMouseMoveTime := by
  induction es with
  | nil => intro s; exact le_refl _
  | cons e rest ih =>
      intro s
      have h1 := handleMouseMove_lastTime_mono s e
      have h2 := ih (handleMouseMove s e)
      have h3 : runMouseMoves s (e :: rest) = runMouseMoves (handleMouseMove s e) rest := by
        simp [runMouseMoves]
      rw [h3]
      exact le_trans h1 h2

/-- Claim C7: a mousemove event arriving less than 8 ms after the last
accepted one leaves the whole pointer state unchanged; an event arriving at
least 8 ms after the last accepted one updates raw position, last position,
velocity and the acceptance time; and any two events of a handled sequence
that both update the state have timestamps at least 8 ms apart, so at most
one update happens per 8 ms window. -/
theorem C7_throttle (s : MouseMoveState) (l1 l2 : List PointerEvent) (e1 f : PointerEvent)
    (h1 : mouseMoveThrottle ≤ e1.time - (runMouseMoves s l1).lastMouseMoveTime)
    (h2 : mouseMoveThrottle ≤ f.time - (runMouseMoves s (l1 ++ e1 :: l2)).lastMouseMoveTime) :
    (∀ s2 : MouseMoveState, ∀ e : PointerEvent,
       e.time - s2.lastMouseMoveTime < mouseMoveThrottle → handleMouseMove s2 e = s2) ∧
    (∀ s2 : MouseMoveState, ∀ e : PointerEvent,
       mouseMoveThrottle ≤ e.time - s2.lastMouseMoveTime →
         (handleMouseMove s2 e).mouseX = e.clientX ∧
         (handleMouseMove s2 e).mouseY = e.clientY ∧
         (handleMouseMove s2 e).velocityX = e.clientX - s2.lastMouseX ∧
         (handleMouseMove s2 e).velocityY = e.clientY - s2.lastMouseY ∧
         (handleMouseMove s2 e).lastMouseX = e.clientX ∧
         (handleMouseMove s2 e).lastMouseY = e.clientY ∧
         (handleMouseMove s2 e).lastMouseMoveTime = e.time) ∧
    mouseMoveThrottle ≤ f.time - e1.time := by
  refine ⟨?_, ?_, ?_⟩
  · intro s2 e he
    unfold handleMouseMove
    exact if_pos he
  · intro s2 e he
    have hne : ¬ (e.time - s2.lastMouseMoveTime < mouseMoveThrottle) := not_lt.mpr he
    simp [handleMouseMove, hne]
  · have key : runMouseMoves s (l1 ++ e1 :: l2) =
        runMouseMoves (handleMouseMove (runMouseMoves s l1) e1) l2 := by
      simp [runMouseMoves, List.foldl_append]
    have hne : ¬ (e1.time - (runMouseMoves s l1).lastMouseMoveTime < mouseMoveThrottle) :=
      not_lt.mpr h1
    have hfst : (handleMouseMove (runMouseMoves s l1) e1).lastMouseMoveTime = e1.time := by
      simp [handleMouseMove, hne]
    have mono := runMouseMoves_lastTime_mono l2 (handleMouseMove (runMouseMoves s l1) e1)
    rw [hfst] at mono
    rw [key] at h2
    unfold mouseMoveThrottle at h2 ⊢
    omega

theorem C7_throttle_witness :
    mouseMoveThrottle ≤ (20 : Int) - (10 : Int) := by
  have h := C7_throttle
    { lastMouseMoveTime := 0, mouseX := 0, mouseY := 0, lastMouseX := 0, lastMouseY := 0,
      velocityX := 0, velocityY := 0 }
    [{ time := 3, clientX := 1, clientY := 1 }] []
    { time := 10, clientX := 2, clientY := 2 }
    { time := 20, clientX := 3, clientY := 3 }
    (by decide) (by decide)
  exact h.2.2

/-- Claim C3: evaluation of the code at the failing input. From the created
cursor state with the pointer at the origin, the ring's written translate is
(-90, -90) after the first tick AND after the second tick, because
updateCursor reads style.left and style.top (forever -100px, set once at
creation) while writing style.transform, so the interpolation never
accumulates. The claim (and the smoothing intent) requires the second tick
to produce previous + (raw - previous) * 0.1 = -90 + (0 - (-90)) * 0.1 = -81.
The dot half of the claim does hold: the dot snaps to the raw position. -/
theorem C3_ring_not_smoothed :
    Option.map TrackedNode.transform (updateCursor cursorState0).cursor =
      some (some (-90, -90)) ∧
    Option.map TrackedNode.transform (updateCursor (updateCursor cursorState0)).cursor =
      some (some (-90, -90)) ∧
    Option.map TrackedNode.transform (updateCursor (updateCursor cursorState0)).cursorDot =
      some (some (0, 0)) ∧
    (-90 : Rat) + ((0 : Rat) - (-90)) * (1 / 10) ≠ -90 := by
  refine ⟨?_, ?_, ?_, by norm_num⟩
  · norm_num [updateCursor, cursorState0, cursorStart, jsOrFloat]
  · norm_num [updateCursor, cursorState0, cursorStart, jsOrFloat, updateCursorTrail]
  · norm_num [updateCursor, cursorState0, cursorStart, jsOrFloat, updateCursorTrail]

/-- Claim C4: evaluation of the code at the failing input. The trail dots
never lag: their style.left and style.top are never assigned, so every
parseFloat falls back to the raw pointer position and each tick writes the
raw position into every dot's transform. After a tick at (0, 0) every dot
sits at (0, 0); after the next tick at (10, 10) dot 1 sits at (10, 10),
while the claim requires 0 + (0 - 0) * 0.3 = 0 (its previous position moved
0.3 of the way toward its predecessor's previous position 0). -/
theorem C4_trail_snaps_to_raw :
    Option.map TrackedNode.transform cursorState1.cursorTrail[0]? = some (some (0, 0)) ∧
    Option.map TrackedNode.transform cursorState1.cursorTrail[1]? = some (some (0, 0)) ∧
    Option.map TrackedNode.transform cursorState2.cursorTrail[0]? = some (some (10, 10)) ∧
    Option.map TrackedNode.transform cursorState2.cursorTrail[1]? = some (some (10, 10)) ∧
    Option.map TrackedNode.transform cursorState2.cursorTrail[7]? = some (some (10, 10)) ∧
    (0 : Rat) + ((0 : Rat) - 0) * (3 / 10) = 0 ∧
    ((10 : Rat), (10 : Rat)) ≠ ((0 : Rat), (0 : Rat)) := by
  refine ⟨?_, ?_, ?_, ?_, ?_, by norm_num, by norm_num⟩
  all_goals
    norm_num [cursorState2, cursorState1, updateCursor, cursorState0, cursorStart, trailStart,
      jsOrFloat, updateCursorTrail, trailLoopDown, trailStep, maxTrailLength, List.replicate]

/-- Claim C5: with reduced motion off, a click handled by createRippleEffect
appends exactly one ripple node to the clicked element; its width and height
both equal the larger side of the element's bounding rect; its center is the
click point in the element's coordinates; and its removal timer fires 600 ms
after it spawned, so at most this one ripple from the click ever exists. -/
theorem C5_ripple_spec (clientX clientY : Rat) (now : Int) (t : ClickTarget) :
    ∃ r : Ripple,
      (createRippleEffect false clientX clientY now t).children = t.children ++ [r] ∧
      r.width = max t.rect.width t.rect.height ∧
      r.height = r.width ∧
      r.left + r.width / 2 = clientX - t.rect.left ∧
      r.top + r.height / 2 = clientY - t.rect.top ∧
      r.spawnedAt = now ∧
      r.removeAt = r.spawnedAt + 600 := by
  refine ⟨_, rfl, rfl, rfl, ?_, ?_, rfl, rfl⟩
  · show clientX - t.rect.left - max t.rect.width t.rect.height / 2 +
      max t.rect.width t.rect.height / 2 = clientX - t.rect.left
    ring
  · show clientY - t.rect.top - max t.rect.width t.rect.height / 2 +
      max t.rect.width t.rect.height / 2 = clientY - t.rect.top
    ring

/-- Claim C6 counterexample: the ripple handler does not set the inline
position to relative only when it was unset; it overwrites it even when it
is already set. A target whose inline position is absolute ends up with
position relative after the click. -/
theorem C6_counterexample :
    ClickTarget.stylePosition
        { rect := { left := 0, top := 0, width := 10, height := 10 },
          stylePosition := some "absolute", children := [] } = some "absolute" ∧
    (createRippleEffect false 5 5 0
        { rect := { left := 0, top := 0, width := 10, height := 10 },
          stylePosition := some "absolute", children := [] }).stylePosition = some "relative" ∧
    (some "relative" : Option String) ≠ some "absolute" := by
  refine ⟨rfl, by decide, by decide⟩

/-- Claim C6 (amended): on every click handled with reduced motion off, the
ripple handler unconditionally sets the clicked element's inline position
style to relative, whatever its previous value, and since this is the only
write the component ever performs on that style, any further clicks leave it
at relative: the change is never reverted. -/
theorem C6_position_forced (clientX clientY : Rat) (now : Int) (t : ClickTarget)
    (clicks : List (Rat × Rat × Int)) :
    (createRippleEffect false clientX clientY now t).stylePosition = some "relative" ∧
    (clicks.foldl (fun acc p => createRippleEffect false p.1 p.2.1 p.2.2 acc)
        (createRippleEffect false clientX clientY now t)).stylePosition = some "relative" := by
  have hstep : ∀ (cx cy : Rat) (n : Int) (u : ClickTarget),
      (createRippleEffect false cx cy n u).stylePosition = some "relative" := by
    intro cx cy n u
    rfl
  refine ⟨hstep _ _ _ _, ?_⟩
  have hfold : ∀ (cl : List (Rat × Rat × Int)) (acc : ClickTarget),
      acc.stylePosition = some "relative" →
      (cl.foldl (fun a p => createRippleEffect false p.1 p.2.1 p.2.2 a) acc).stylePosition =
        some "relative" := by
    intro cl
    induction cl with
    | nil => intro acc hacc; exact hacc
    | cons p rest ih =>
        intro acc _
        exact ih _ (hstep _ _ _ _)
  exact hfold clicks _ (hstep _ _ _ _)

/-- Claim C9 counterexample: the card-spotlight listener does not restrict
its writes to the hovered card. With the pointer at (5, 5) and a single card
whose rect starts at x = 100 (so the pointer is not over it), the listener
still writes the custom properties on that card, with the out-of-range
relative value -95. -/
theorem C9_counterexample :
    containsPoint cardFar 5 5 = false ∧
    (handleCardHover 5 5 [cardFar])[0]? =
      some { rectLeft := 100, rectTop := 0, rectWidth := 10, rectHeight := 10,
             varX := some (-95), varY := some 5 } ∧
    cardFar.varX = none := by
  refine ⟨?_, ?_, rfl⟩
  · norm_num [containsPoint, cardFar]
  · norm_num [handleCardHover, cardFar]

/-- Claim C9 (amended): on every pointer-move event, the unthrottled
card-spotlight listener sets the custom properties on EVERY element matching
the card selectors, hovered or not, each to the pointer position relative to
that card's own bounding box. -/
theorem C9_all_cards_updated (clientX clientY : Rat) (cards : List CardElem)
    (i : Nat) (c : CardElem) (h : cards[i]? = some c) :
    (handleCardHover clientX clientY cards)[i]? =
      some { c with varX := some (clientX - c.rectLeft),
                    varY := some (clientY - c.rectTop) } := by
  simp [handleCardHover, List.getElem?_map, h]

theorem C9_all_cards_updated_witness :
    (handleCardHover 5 5 [cardFar])[0]? =
      some { cardFar with varX := some ((5 : Rat) - 100), varY := some ((5 : Rat) - 0) } :=
  C9_all_cards_updated 5 5 [cardFar] 0 cardFar rfl

/-- Claim C2 counterexample: after destroy, the component still mutates the
DOM. destroy does not remove the document-level mousemove listeners, so a
later mousemove still runs the card-spotlight handler and rewrites the
custom properties of the cards; the mutation observer also stays connected. -/
theorem C2_counterexample :
    (destroy dw0).docListenersAttached = true ∧
    (destroy dw0).mutationObserverConnected = true ∧
    (dispatchMouseMove (destroy dw0) 5 7).cards =
      [{ rectLeft := 0, rectTop := 0, rectWidth := 10, rectHeight := 10,
         varX := some 5, varY := some 7 }] ∧
    (destroy dw0).cards =
      [{ rectLeft := 0, rectTop := 0, rectWidth := 10, rectHeight := 10,
         varX := none, varY := none }] ∧
    (some (5 : Rat) ≠ (none : Option Rat)) := by
  refine ⟨rfl, rfl, ?_, rfl, by simp⟩
  norm_num [dispatchMouseMove, destroy, dw0, handleCardHover]

/-- Claim C2 (amended): destroy removes every background, cursor, dot and
trail node and cancels the frame loop and the intersection observer, but it
leaves the document listeners attached and the mutation observer connected,
so component callbacks can still mutate the DOM after teardown. -/
theorem C2_destroy_cleanup (w : DWorld) :
    (destroy w).cursorAttached = false ∧
    (destroy w).cursorDotAttached = false ∧
    (destroy w).trailAttachedCount = 0 ∧
    (destroy w).backgroundAttached = false ∧
    (destroy w).animationFrameActive = false ∧
    (destroy w).intersectionObserverConnected = false ∧
    (destroy w).docListenersAttached = w.docListenersAttached ∧
    (destroy w).mutationObserverConnected = w.mutationObserverConnected :=
  ⟨rfl, rfl, rfl, rfl, rfl, rfl, rfl, rfl⟩

/-- Claim C1 counterexample: with reduced motion active at construction, the
scroll-tagged elements are NOT marked visible by initialization. init never
calls checkElementsInViewport (that only runs from the resize handler), so
an animate-on-scroll element still lacks the visible class after the
constructor and init complete. -/
theorem C1_counterexample :
    ¬ (∀ el ∈ (newMotionEffects true [{ classes := [], rectTop := 0, rectBottom := 10 }]
          [] none 800).animatedElements, "visible" ∈ el.classes) := by
  intro h
  have h1 : (newMotionEffects true [{ classes := [], rectTop := 0, rectBottom := 10 }]
      [] none 800).animatedElements = [{ classes := [], rectTop := 0, rectBottom := 10 }] := by
    simp [newMotionEffects, initEffects, construct, createMotionBackground, createCustomCursor,
      setupScrollAnimations, setupEventListeners, startAnimationLoop, animatePageTransition]
  rw [h1] at h
  simpa using h { classes := [], rectTop := 0, rectBottom := 10 } (by simp)

theorem newME_reduced (a s : List HostElem) (m : Option HostElem) (wh : Rat) :
    (newMotionEffects true a s m wh).prefersReducedMotion = true ∧
    (newMotionEffects true a s m wh).motionBackgroundCreated = false ∧
    (newMotionEffects true a s m wh).layerCount = 0 ∧
    (newMotionEffects true a s m wh).particleCount = 0 ∧
    (newMotionEffects true a s m wh).floatingShapeCount = 0 ∧
    (newMotionEffects true a s m wh).cursorCreated = false ∧
    (newMotionEffects true a s m wh).cursorDotCreated = false ∧
    (newMotionEffects true a s m wh).trailCount = 0 ∧
    (newMotionEffects true a s m wh).animatedElements = a ∧
    (newMotionEffects true a s m wh).staggerGroups = s := by
  cases m <;> simp [newMotionEffects, initEffects, construct, createMotionBackground,
    createCustomCursor, setupScrollAnimations, setupEventListeners, startAnimationLoop,
    animatePageTransition]

/-- Claim C1 (amended): with reduced motion active at construction, no
motion-background node, layer, particle, shape, cursor, dot or trail node is
ever created, and the reduced-motion branch of checkElementsInViewport marks
every scroll-tagged element visible unconditionally; but that check only
runs from the resize handler, not at initialization, so the elements become
visible on the first manual check (or through the intersection observer),
not immediately at init. -/
theorem C1_reduced_motion (animated stagger : List HostElem) (mainC : Option HostElem)
    (wh : Rat) (el : HostElem)
    (h : el ∈ (checkElementsInViewport
           (newMotionEffects true animated stagger mainC wh)).animatedElements ∨
         el ∈ (checkElementsInViewport
           (newMotionEffects true animated stagger mainC wh)).staggerGroups) :
    (newMotionEffects true animated stagger mainC wh).motionBackgroundCreated = false ∧
    (newMotionEffects true animated stagger mainC wh).layerCount = 0 ∧
    (newMotionEffects true animated stagger mainC wh).particleCount = 0 ∧
    (newMotionEffects true animated stagger mainC wh).floatingShapeCount = 0 ∧
    (newMotionEffects true animated stagger mainC wh).cursorCreated = false ∧
    (newMotionEffects true animated stagger mainC wh).cursorDotCreated = false ∧
    (newMotionEffects true animated stagger mainC wh).trailCount = 0 ∧
    "visible" ∈ el.classes := by
  obtain ⟨hred, hmb, hl, hp, hfs, hc, hcd, ht, ha, hs⟩ :=
    newME_reduced animated stagger mainC wh
  refine ⟨hmb, hl, hp, hfs, hc, hcd, ht, ?_⟩
  rw [checkElementsInViewport, if_pos hred] at h
  rcases h with h | h
  · simp only [ha] at h
    obtain ⟨x, _, rfl⟩ := List.mem_map.mp h
    exact self_mem_classAdd _ _
  · simp only [hs] at h
    obtain ⟨x, _, rfl⟩ := List.mem_map.mp h
    exact self_mem_classAdd _ _

theorem C1_reduced_motion_witness :
    (newMotionEffects true [{ classes := ["a"], rectTop := 0, rectBottom := 10 }]
        [] none 800).cursorCreated = false ∧
    "visible" ∈ HostElem.classes
      { classes := ["a", "visible"], rectTop := 0, rectBottom := 10 } := by
  have h := C1_reduced_motion [{ classes := ["a"], rectTop := 0, rectBottom := 10 }] [] none 800
    { classes := ["a", "visible"], rectTop := 0, rectBottom := 10 }
    (Or.inl (by simp [checkElementsInViewport, newMotionEffects, initEffects, construct,
      createMotionBackground, createCustomCursor, setupScrollAnimations, setupEventListeners,
      startAnimationLoop, animatePageTransition, markVisible, classAdd]))
  exact ⟨h.2.2.2.2.1, h.2.2.2.2.2.2.2⟩
